import Mathlib

/-!
Shallow embedding of the RAnimation easing library (two near-duplicate
source variants: `src/animation/easing.jsx` and an unnamed file) over the
real numbers.  JavaScript floating-point arithmetic is modelled by exact
real arithmetic: `Math.pow` with a positive base is `Real.rpow`,
`Math.pow(t, 3)` with a literal integer exponent is the ring power,
`Math.round` is `round`, `Math.floor` is `Int.floor`.
-/

noncomputable section

open Real

/-! ### Variant 1: `src/src/animation/easing.jsx` -/

namespace EasingJsx

namespace EasingHelpers

/-- `ease(f, start, end)` from easing.jsx: `t => start + f(t) * (end - start)`. -/
def ease (f : ℝ → ℝ) (start stop : ℝ) : ℝ → ℝ :=
  fun t => start + f t * (stop - start)

/-- `toEaseOut(f)` from easing.jsx: `t => 1 - f(1 - t)`. -/
def toEaseOut (f : ℝ → ℝ) : ℝ → ℝ :=
  fun t => 1 - f (1 - t)

/-- `toEaseInOut(f)` from easing.jsx:
`t => 0.5 * (t < 0.5 ? f(2 * t) : (2 - f(2 - 2 * t)))`. -/
def toEaseInOut (f : ℝ → ℝ) : ℝ → ℝ :=
  fun t => 0.5 * (if t < 0.5 then f (2 * t) else 2 - f (2 - 2 * t))

/-- The divisor of `squeeze`: `f(x2) - f(x1)`.  When this is zero the
JavaScript division produces a non-finite float. -/
def squeezeDivisor (f : ℝ → ℝ) (x1 x2 : ℝ) : ℝ := f x2 - f x1

/-- `squeeze(f, x1, x2)` from easing.jsx:
`t => (f(x1 + t*(x2-x1)) - f(x1)) / (f(x2) - f(x1))`. -/
def squeeze (f : ℝ → ℝ) (x1 x2 : ℝ) : ℝ → ℝ :=
  fun t => (f (x1 + t * (x2 - x1)) - f x1) / squeezeDivisor f x1 x2

/-- Finiteness-tracking model of the same `squeeze` source line: JavaScript
division of a finite numerator by zero yields a non-finite float (`NaN` or
`±Infinity`), modelled as `none`; otherwise the exact real quotient. -/
def squeezeF (f : ℝ → ℝ) (x1 x2 : ℝ) : ℝ → Option ℝ :=
  fun t =>
    if squeezeDivisor f x1 x2 = 0 then none
    else some ((f (x1 + t * (x2 - x1)) - f x1) / squeezeDivisor f x1 x2)

end EasingHelpers

namespace Easing

/-- `linear(t)` from easing.jsx. -/
def linear (t : ℝ) : ℝ := t

/-- `quadIn(t)` from easing.jsx: `t * t`. -/
def quadIn (t : ℝ) : ℝ := t * t

/-- `quadOut` from easing.jsx. -/
def quadOut (t : ℝ) : ℝ := EasingHelpers.toEaseOut quadIn t

/-- `quadInOut` from easing.jsx. -/
def quadInOut (t : ℝ) : ℝ := EasingHelpers.toEaseInOut quadIn t

/-- `cubicIn(t)` from easing.jsx: `Math.pow(t, 3)`. -/
def cubicIn (t : ℝ) : ℝ := t ^ 3

/-- `cubicOut` from easing.jsx. -/
def cubicOut (t : ℝ) : ℝ := EasingHelpers.toEaseOut cubicIn t

/-- `cubicInOut` from easing.jsx. -/
def cubicInOut (t : ℝ) : ℝ := EasingHelpers.toEaseInOut cubicIn t

/-- `makePolyIn(exponent)` from easing.jsx: `t => Math.pow(t, exponent)`. -/
def makePolyIn (exponent : ℝ) : ℝ → ℝ :=
  fun t => Real.rpow t exponent

/-- `sinIn(t)` from easing.jsx: `1 - Math.cos(t * Math.PI/2)`. -/
def sinIn (t : ℝ) : ℝ := 1 - Real.cos (t * (Real.pi / 2))

/-- `sinOut` from easing.jsx. -/
def sinOut (t : ℝ) : ℝ := EasingHelpers.toEaseOut sinIn t

/-- `sinInOut` from easing.jsx. -/
def sinInOut (t : ℝ) : ℝ := EasingHelpers.toEaseInOut sinIn t

/-- `expIn(t)` from easing.jsx: `Math.pow(2, 10 * (t - 1))`. -/
def expIn (t : ℝ) : ℝ := Real.rpow 2 (10 * (t - 1))

/-- `expOut` from easing.jsx. -/
def expOut (t : ℝ) : ℝ := EasingHelpers.toEaseOut expIn t

/-- `expInOut` from easing.jsx. -/
def expInOut (t : ℝ) : ℝ := EasingHelpers.toEaseInOut expIn t

/-- `circleIn(t)` from easing.jsx: `1 - Math.sqrt(1 - t * t)`. -/
def circleIn (t : ℝ) : ℝ := 1 - Real.sqrt (1 - t * t)

/-- `circleOut` from easing.jsx. -/
def circleOut (t : ℝ) : ℝ := EasingHelpers.toEaseOut circleIn t

/-- `circleInOut` from easing.jsx. -/
def circleInOut (t : ℝ) : ℝ := EasingHelpers.toEaseInOut circleIn t

/-- `makeBackIn(amplitude)` from easing.jsx: `x => x*x*((1+amplitude)*x-amplitude)`. -/
def makeBackIn (amplitude : ℝ) : ℝ → ℝ :=
  fun x => x * x * ((1 + amplitude) * x - amplitude)

/-- `backIn(t)` from easing.jsx: `makeBackIn(1.70158)(t)`. -/
def backIn (t : ℝ) : ℝ := makeBackIn 1.70158 t

/-- `backOut` from easing.jsx. -/
def backOut (t : ℝ) : ℝ := EasingHelpers.toEaseOut backIn t

/-- `backInOut` from easing.jsx. -/
def backInOut (t : ℝ) : ℝ := EasingHelpers.toEaseInOut backIn t

/-- `makeElasticIn(springiness, numberOfSwings)` from easing.jsx:
rounds the swing count, then
`x => (exp(s*x)-1)/(exp(s)-1) * sin((PI*2*n + PI*0.5) * x)`. -/
def makeElasticIn (springiness numberOfSwings : ℝ) : ℝ → ℝ :=
  let s := springiness
  let n : ℤ := round numberOfSwings
  fun x => (Real.exp (s * x) - 1) / (Real.exp s - 1) *
    Real.sin ((Real.pi * 2 * (n : ℝ) + Real.pi * 0.5) * x)

/-- `elasticIn(t)` from easing.jsx:
`Math.sin(13.0 * t * Math.PI/2) * Math.pow(2.0, 10.0 * (t - 1.0))`. -/
def elasticIn (t : ℝ) : ℝ :=
  Real.sin (13 * t * (Real.pi / 2)) * Real.rpow 2 (10 * (t - 1))

/-- `elasticOut` from easing.jsx. -/
def elasticOut (t : ℝ) : ℝ := EasingHelpers.toEaseOut elasticIn t

/-- `elasticInOut` from easing.jsx. -/
def elasticInOut (t : ℝ) : ℝ := EasingHelpers.toEaseInOut elasticIn t

/-- The clamped bounciness of `makeBounceIn`:
`if (bounciness <= 1) bounciness = 1.001`. -/
def bounceB (bounciness : ℝ) : ℝ := if bounciness ≤ 1 then 1.001 else bounciness

/-- `var pow = Math.pow(bounciness, bounces)` in `makeBounceIn`
(with the clamped bounciness). -/
def bouncePow (bounces bounciness : ℝ) : ℝ :=
  Real.rpow (bounceB bounciness) bounces

/-- `var sumOfUnits = (1.0 - pow) / oneMinusBounciness + pow * 0.5`
in `makeBounceIn`. -/
def bounceSumOfUnits (bounces bounciness : ℝ) : ℝ :=
  (1 - bouncePow bounces bounciness) / (1 - bounceB bounciness) +
    bouncePow bounces bounciness * 0.5

/-- The argument of the segment-lookup logarithm in `makeBounceIn`:
`-unitAtT * (1.0-bounciness) + 1.0` with `unitAtT = t * sumOfUnits`. -/
def bounceLogArg (bounces bounciness t : ℝ) : ℝ :=
  -(t * bounceSumOfUnits bounces bounciness) * (1 - bounceB bounciness) + 1

/-- `makeBounceIn(bounces, bounciness)` from easing.jsx. -/
def makeBounceIn (bounces bounciness : ℝ) : ℝ → ℝ :=
  fun t =>
    let b := bounceB bounciness
    let sumOfUnits := bounceSumOfUnits bounces bounciness
    let bounceAtT := Real.log (bounceLogArg bounces bounciness t) / Real.log b
    let start : ℝ := (⌊bounceAtT⌋ : ℤ)
    let startTime := (1 - Real.rpow b start) / ((1 - b) * sumOfUnits)
    let endTime := (1 - Real.rpow b (start + 1)) / ((1 - b) * sumOfUnits)
    let midTime := (startTime + endTime) * 0.5
    let timeRelativeToPeak := t - midTime
    let radius := midTime - startTime
    let amplitude := Real.rpow (1 / b) (bounces - start)
    (-amplitude / (radius * radius)) * (timeRelativeToPeak - radius) *
      (timeRelativeToPeak + radius)

/-- `bounceOut(t)` from easing.jsx (the `t -= c` updates are written out). -/
def bounceOut (t : ℝ) : ℝ :=
  if t < 1 / 2.75 then 7.5625 * t * t
  else if t < 2 / 2.75 then 7.5625 * (t - 1.5 / 2.75) * (t - 1.5 / 2.75) + 0.75
  else if t < 2.5 / 2.75 then
    7.5625 * (t - 2.25 / 2.75) * (t - 2.25 / 2.75) + 0.9375
  else 7.5625 * (t - 2.625 / 2.75) * (t - 2.625 / 2.75) + 0.984375

/-- `bounceIn(t)` from easing.jsx: `EasingHelpers.toEaseOut(Easing.bounceOut)(t)`. -/
def bounceIn (t : ℝ) : ℝ := EasingHelpers.toEaseOut bounceOut t

/-- `bounceInOut` from easing.jsx. -/
def bounceInOut (t : ℝ) : ℝ := EasingHelpers.toEaseInOut bounceIn t

end Easing

end EasingJsx

/-! ### Variant 2: the unnamed source file (old-style function expressions) -/

namespace Part000

namespace helpers

/-- `ease` from the unnamed variant. -/
def ease (f : ℝ → ℝ) (start stop : ℝ) : ℝ → ℝ :=
  fun t => start + f t * (stop - start)

/-- `toEaseOut` from the unnamed variant. -/
def toEaseOut (f : ℝ → ℝ) : ℝ → ℝ :=
  fun t => 1 - f (1 - t)

/-- `toEaseInOut` from the unnamed variant. -/
def toEaseInOut (f : ℝ → ℝ) : ℝ → ℝ :=
  fun t => 0.5 * (if t < 0.5 then f (2 * t) else 2 - f (2 - 2 * t))

/-- `squeeze` from the unnamed variant (it caches `y1 = f(x1)`). -/
def squeeze (f : ℝ → ℝ) (x1 x2 : ℝ) : ℝ → ℝ :=
  let y1 := f x1
  fun t => (f (x1 + t * (x2 - x1)) - y1) / (f x2 - y1)

end helpers

namespace Easing

/-- `linear` from the unnamed variant. -/
def linear (t : ℝ) : ℝ := t

/-- `quadIn` from the unnamed variant. -/
def quadIn (t : ℝ) : ℝ := t * t

/-- `quadOut` from the unnamed variant. -/
def quadOut (t : ℝ) : ℝ := helpers.toEaseOut quadIn t

/-- `quadInOut` from the unnamed variant. -/
def quadInOut (t : ℝ) : ℝ := helpers.toEaseInOut quadIn t

/-- `cubicIn` from the unnamed variant: `Math.pow(t, 3)`. -/
def cubicIn (t : ℝ) : ℝ := t ^ 3

/-- `cubicOut` from the unnamed variant. -/
def cubicOut (t : ℝ) : ℝ := helpers.toEaseOut cubicIn t

/-- `cubicInOut` from the unnamed variant. -/
def cubicInOut (t : ℝ) : ℝ := helpers.toEaseInOut cubicIn t

/-- `sinIn` from the unnamed variant. -/
def sinIn (t : ℝ) : ℝ := 1 - Real.cos (t * (Real.pi / 2))

/-- `sinOut` from the unnamed variant. -/
def sinOut (t : ℝ) : ℝ := helpers.toEaseOut sinIn t

/-- `sinInOut` from the unnamed variant. -/
def sinInOut (t : ℝ) : ℝ := helpers.toEaseInOut sinIn t

/-- `expIn` from the unnamed variant. -/
def expIn (t : ℝ) : ℝ := Real.rpow 2 (10 * (t - 1))

/-- `expOut` from the unnamed variant. -/
def expOut (t : ℝ) : ℝ := helpers.toEaseOut expIn t

/-- `expInOut` from the unnamed variant. -/
def expInOut (t : ℝ) : ℝ := helpers.toEaseInOut expIn t

/-- `circleIn` from the unnamed variant. -/
def circleIn (t : ℝ) : ℝ := 1 - Real.sqrt (1 - t * t)

/-- `circleOut` from the unnamed variant. -/
def circleOut (t : ℝ) : ℝ := helpers.toEaseOut circleIn t

/-- `circleInOut` from the unnamed variant. -/
def circleInOut (t : ℝ) : ℝ := helpers.toEaseInOut circleIn t

end Easing

namespace make

/-- `make.polyIn` from the unnamed variant. -/
def polyIn (exponent : ℝ) : ℝ → ℝ :=
  fun t => Real.rpow t exponent

/-- `make.backIn` from the unnamed variant. -/
def backIn (amplitude : ℝ) : ℝ → ℝ :=
  fun x => x * x * ((1 + amplitude) * x - amplitude)

/-- `make.elasticIn` from the unnamed variant. -/
def elasticIn (springiness numberOfSwings : ℝ) : ℝ → ℝ :=
  let s := springiness
  let n : ℤ := round numberOfSwings
  fun x => (Real.exp (s * x) - 1) / (Real.exp s - 1) *
    Real.sin ((Real.pi * 2 * (n : ℝ) + Real.pi * 0.5) * x)

end make

namespace Easing

/-- `backIn` from the unnamed variant: `Easing.make.backIn(1.70158)(t)`. -/
def backIn (t : ℝ) : ℝ := make.backIn 1.70158 t

/-- `backOut` from the unnamed variant. -/
def backOut (t : ℝ) : ℝ := helpers.toEaseOut backIn t

/-- `backInOut` from the unnamed variant. -/
def backInOut (t : ℝ) : ℝ := helpers.toEaseInOut backIn t

/-- `elasticIn` from the unnamed variant. -/
def elasticIn (t : ℝ) : ℝ :=
  Real.sin (13 * t * (Real.pi / 2)) * Real.rpow 2 (10 * (t - 1))

/-- `elasticOut` from the unnamed variant. -/
def elasticOut (t : ℝ) : ℝ := helpers.toEaseOut elasticIn t

/-- `elasticInOut` from the unnamed variant. -/
def elasticInOut (t : ℝ) : ℝ := helpers.toEaseInOut elasticIn t

/-- `bounceOut` from the unnamed variant. -/
def bounceOut (t : ℝ) : ℝ :=
  if t < 1 / 2.75 then 7.5625 * t * t
  else if t < 2 / 2.75 then 7.5625 * (t - 1.5 / 2.75) * (t - 1.5 / 2.75) + 0.75
  else if t < 2.5 / 2.75 then
    7.5625 * (t - 2.25 / 2.75) * (t - 2.25 / 2.75) + 0.9375
  else 7.5625 * (t - 2.625 / 2.75) * (t - 2.625 / 2.75) + 0.984375

/-- `bounceIn` from the unnamed variant. -/
def bounceIn (t : ℝ) : ℝ := helpers.toEaseOut bounceOut t

/-- `bounceInOut` from the unnamed variant. -/
def bounceInOut (t : ℝ) : ℝ := helpers.toEaseInOut bounceIn t

end Easing

end Part000

end

/-! ### Helper lemmas -/

/-- `quadIn 1 = 1`. -/
lemma quadIn_one : EasingJsx.Easing.quadIn 1 = 1 := by
  norm_num [EasingJsx.Easing.quadIn]

/-- `cubicIn 1 = 1`. -/
lemma cubicIn_one : EasingJsx.Easing.cubicIn 1 = 1 := by
  norm_num [EasingJsx.Easing.cubicIn]

/-- `sinIn 1 = 1`. -/
lemma sinIn_one : EasingJsx.Easing.sinIn 1 = 1 := by
  simp [EasingJsx.Easing.sinIn, Real.cos_pi_div_two]

/-- `expIn 1 = 1`. -/
lemma expIn_one : EasingJsx.Easing.expIn 1 = 1 := by
  norm_num [EasingJsx.Easing.expIn, Real.rpow_zero]

/-- `circleIn 1 = 1`. -/
lemma circleIn_one : EasingJsx.Easing.circleIn 1 = 1 := by
  norm_num [EasingJsx.Easing.circleIn, Real.sqrt_zero]

/-- `backIn 1 = 1`. -/
lemma backIn_one : EasingJsx.Easing.backIn 1 = 1 := by
  norm_num [EasingJsx.Easing.backIn, EasingJsx.Easing.makeBackIn]

/-- `sin (13 * 1 * (pi / 2)) = 1`, the value used by `elasticIn 1`. -/
lemma sin_thirteen_halves_pi : Real.sin (13 * (1 : ℝ) * (Real.pi / 2)) = 1 := by
  have h : (13 : ℝ) * 1 * (Real.pi / 2) = Real.pi / 2 + (3 : ℤ) * (2 * Real.pi) := by
    push_cast; ring
  rw [h, Real.sin_add_int_mul_two_pi, Real.sin_pi_div_two]

/-- `elasticIn 1 = 1`. -/
lemma elasticIn_one : EasingJsx.Easing.elasticIn 1 = 1 := by
  rw [EasingJsx.Easing.elasticIn, sin_thirteen_halves_pi]
  norm_num [Real.rpow_zero]

/-- `bounceOut 0 = 0`. -/
lemma bounceOut_zero : EasingJsx.Easing.bounceOut 0 = 0 := by
  rw [EasingJsx.Easing.bounceOut, if_pos (by norm_num : (0 : ℝ) < 1 / 2.75)]
  norm_num

/-- `bounceOut 1 = 1`. -/
lemma bounceOut_one : EasingJsx.Easing.bounceOut 1 = 1 := by
  rw [EasingJsx.Easing.bounceOut, if_neg (by norm_num : ¬((1 : ℝ) < 1 / 2.75)),
    if_neg (by norm_num : ¬((1 : ℝ) < 2 / 2.75)),
    if_neg (by norm_num : ¬((1 : ℝ) < 2.5 / 2.75))]
  norm_num

/-- Unfolded form of `toEaseInOut`, distributing the `0.5` factor. -/
lemma toEaseInOut_eq (f : ℝ → ℝ) (t : ℝ) :
    EasingJsx.EasingHelpers.toEaseInOut f t =
      if t < 0.5 then 0.5 * f (2 * t) else 0.5 * (2 - f (2 - 2 * t)) := by
  simp only [EasingJsx.EasingHelpers.toEaseInOut]
  split_ifs <;> ring

/-- Midpoint value of `toEaseInOut f` when `f 1 = 1`. -/
lemma toEaseInOut_half (f : ℝ → ℝ) (hf : f 1 = 1) :
    EasingJsx.EasingHelpers.toEaseInOut f 0.5 = 0.5 := by
  simp only [EasingJsx.EasingHelpers.toEaseInOut]
  rw [if_neg (lt_irrefl (0.5 : ℝ))]
  norm_num [hf]

/-! ### Claim theorems -/

/-- Claim C1: for every real `t`, the base easing functions compute exactly the
spec's formulas: `linear t = t`, `quadIn t = t^2`, `cubicIn t = t^3`,
`sinIn t = 1 - cos (t*pi/2)`, `expIn t = 2^(10*(t-1))`,
`circleIn t = 1 - sqrt (1 - t^2)`,
`backIn t = t^2 * ((1+1.70158)*t - 1.70158)` (i.e. `makeBackIn 1.70158 t`),
`elasticIn t = sin (13*t*pi/2) * 2^(10*(t-1))`, and
`bounceIn t = 1 - bounceOut (1-t)`. -/
theorem c1_base_easing_formulas (t : ℝ) :
    EasingJsx.Easing.linear t = t ∧
    EasingJsx.Easing.quadIn t = t ^ 2 ∧
    EasingJsx.Easing.cubicIn t = t ^ 3 ∧
    EasingJsx.Easing.sinIn t = 1 - Real.cos (t * Real.pi / 2) ∧
    EasingJsx.Easing.expIn t = Real.rpow 2 (10 * (t - 1)) ∧
    EasingJsx.Easing.circleIn t = 1 - Real.sqrt (1 - t ^ 2) ∧
    EasingJsx.Easing.backIn t = EasingJsx.Easing.makeBackIn 1.70158 t ∧
    EasingJsx.Easing.backIn t = t ^ 2 * ((1 + 1.70158) * t - 1.70158) ∧
    EasingJsx.Easing.elasticIn t =
      Real.sin (13 * t * Real.pi / 2) * Real.rpow 2 (10 * (t - 1)) ∧
    EasingJsx.Easing.bounceIn t = 1 - EasingJsx.Easing.bounceOut (1 - t) := by
  refine ⟨rfl, ?_, rfl, ?_, rfl, ?_, rfl, ?_, ?_, rfl⟩
  · unfold EasingJsx.Easing.quadIn; ring
  · unfold EasingJsx.Easing.sinIn; rw [mul_div_assoc]
  · unfold EasingJsx.Easing.circleIn; rw [pow_two]
  · unfold EasingJsx.Easing.backIn EasingJsx.Easing.makeBackIn; ring
  · unfold EasingJsx.Easing.elasticIn; rw [mul_div_assoc]

/-- The spec's four-segment piecewise quadratic for `bounceOut`, written from
the spec's words (half-open `<` comparisons, evaluated in this order). -/
noncomputable def specBounceOut (t : ℝ) : ℝ :=
  if t < 1 / 2.75 then 7.5625 * t ^ 2
  else if t < 2 / 2.75 then 7.5625 * (t - 1.5 / 2.75) ^ 2 + 0.75
  else if t < 2.5 / 2.75 then 7.5625 * (t - 2.25 / 2.75) ^ 2 + 0.9375
  else 7.5625 * (t - 2.625 / 2.75) ^ 2 + 0.984375

/-- Claim C2: for every real `t`, the source's `bounceOut` equals the spec's
four-segment piecewise quadratic with strict boundary comparisons evaluated in
the spec's order. -/
theorem c2_bounceOut_piecewise (t : ℝ) :
    EasingJsx.Easing.bounceOut t = specBounceOut t := by
  unfold EasingJsx.Easing.bounceOut specBounceOut
  split_ifs <;> ring

/-- Claim C3: every standard "In" easing function except `expIn` satisfies
`f 0 = 0` and `f 1 = 1` exactly over the reals. -/
theorem c3_endpoint_values :
    EasingJsx.Easing.linear 0 = 0 ∧ EasingJsx.Easing.linear 1 = 1 ∧
    EasingJsx.Easing.quadIn 0 = 0 ∧ EasingJsx.Easing.quadIn 1 = 1 ∧
    EasingJsx.Easing.cubicIn 0 = 0 ∧ EasingJsx.Easing.cubicIn 1 = 1 ∧
    EasingJsx.Easing.sinIn 0 = 0 ∧ EasingJsx.Easing.sinIn 1 = 1 ∧
    EasingJsx.Easing.circleIn 0 = 0 ∧ EasingJsx.Easing.circleIn 1 = 1 ∧
    EasingJsx.Easing.backIn 0 = 0 ∧ EasingJsx.Easing.backIn 1 = 1 ∧
    EasingJsx.Easing.elasticIn 0 = 0 ∧ EasingJsx.Easing.elasticIn 1 = 1 ∧
    EasingJsx.Easing.bounceIn 0 = 0 ∧ EasingJsx.Easing.bounceIn 1 = 1 := by
  refine ⟨rfl, rfl, by norm_num [EasingJsx.Easing.quadIn], quadIn_one,
    by norm_num [EasingJsx.Easing.cubicIn], cubicIn_one,
    by simp [EasingJsx.Easing.sinIn], sinIn_one,
    by norm_num [EasingJsx.Easing.circleIn, Real.sqrt_one], circleIn_one,
    by norm_num [EasingJsx.Easing.backIn, EasingJsx.Easing.makeBackIn], backIn_one,
    by simp [EasingJsx.Easing.elasticIn], elasticIn_one, ?_, ?_⟩
  · show 1 - EasingJsx.Easing.bounceOut (1 - 0) = 0
    norm_num [bounceOut_one]
  · show 1 - EasingJsx.Easing.bounceOut (1 - 1) = 1
    norm_num [bounceOut_zero]

/-- Claim C4: for every base "In" function (quad, cubic, sin, exp, circle,
back, elastic) and every real `t`, the derived variants satisfy
`xOut t = 1 - xIn (1 - t)` and
`xInOut t = 0.5 * xIn (2*t)` when `t < 0.5`, else `0.5 * (2 - xIn (2 - 2*t))`;
and since each of these `xIn` has `xIn 1 = 1`, `xInOut 0.5 = 0.5`. -/
theorem c4_derived_variants (t : ℝ) :
    (EasingJsx.Easing.quadOut t = 1 - EasingJsx.Easing.quadIn (1 - t)) ∧
    (EasingJsx.Easing.quadInOut t =
      if t < 0.5 then 0.5 * EasingJsx.Easing.quadIn (2 * t)
      else 0.5 * (2 - EasingJsx.Easing.quadIn (2 - 2 * t))) ∧
    (EasingJsx.Easing.cubicOut t = 1 - EasingJsx.Easing.cubicIn (1 - t)) ∧
    (EasingJsx.Easing.cubicInOut t =
      if t < 0.5 then 0.5 * EasingJsx.Easing.cubicIn (2 * t)
      else 0.5 * (2 - EasingJsx.Easing.cubicIn (2 - 2 * t))) ∧
    (EasingJsx.Easing.sinOut t = 1 - EasingJsx.Easing.sinIn (1 - t)) ∧
    (EasingJsx.Easing.sinInOut t =
      if t < 0.5 then 0.5 * EasingJsx.Easing.sinIn (2 * t)
      else 0.5 * (2 - EasingJsx.Easing.sinIn (2 - 2 * t))) ∧
    (EasingJsx.Easing.expOut t = 1 - EasingJsx.Easing.expIn (1 - t)) ∧
    (EasingJsx.Easing.expInOut t =
      if t < 0.5 then 0.5 * EasingJsx.Easing.expIn (2 * t)
      else 0.5 * (2 - EasingJsx.Easing.expIn (2 - 2 * t))) ∧
    (EasingJsx.Easing.circleOut t = 1 - EasingJsx.Easing.circleIn (1 - t)) ∧
    (EasingJsx.Easing.circleInOut t =
      if t < 0.5 then 0.5 * EasingJsx.Easing.circleIn (2 * t)
      else 0.5 * (2 - EasingJsx.Easing.circleIn (2 - 2 * t))) ∧
    (EasingJsx.Easing.backOut t = 1 - EasingJsx.Easing.backIn (1 - t)) ∧
    (EasingJsx.Easing.backInOut t =
      if t < 0.5 then 0.5 * EasingJsx.Easing.backIn (2 * t)
      else 0.5 * (2 - EasingJsx.Easing.backIn (2 - 2 * t))) ∧
    (EasingJsx.Easing.elasticOut t = 1 - EasingJsx.Easing.elasticIn (1 - t)) ∧
    (EasingJsx.Easing.elasticInOut t =
      if t < 0.5 then 0.5 * EasingJsx.Easing.elasticIn (2 * t)
      else 0.5 * (2 - EasingJsx.Easing.elasticIn (2 - 2 * t))) ∧
    EasingJsx.Easing.quadInOut 0.5 = 0.5 ∧
    EasingJsx.Easing.cubicInOut 0.5 = 0.5 ∧
    EasingJsx.Easing.sinInOut 0.5 = 0.5 ∧
    EasingJsx.Easing.expInOut 0.5 = 0.5 ∧
    EasingJsx.Easing.circleInOut 0.5 = 0.5 ∧
    EasingJsx.Easing.backInOut 0.5 = 0.5 ∧
    EasingJsx.Easing.elasticInOut 0.5 = 0.5 :=
  ⟨rfl, toEaseInOut_eq _ t, rfl, toEaseInOut_eq _ t, rfl, toEaseInOut_eq _ t,
   rfl, toEaseInOut_eq _ t, rfl, toEaseInOut_eq _ t, rfl, toEaseInOut_eq _ t,
   rfl, toEaseInOut_eq _ t,
   toEaseInOut_half _ quadIn_one, toEaseInOut_half _ cubicIn_one,
   toEaseInOut_half _ sinIn_one, toEaseInOut_half _ expIn_one,
   toEaseInOut_half _ circleIn_one, toEaseInOut_half _ backIn_one,
   toEaseInOut_half _ elasticIn_one⟩

/-- Claim C9: the identity function is a fixed point of `toEaseInOut`:
for every real `t`, `toEaseInOut linear t = t`. -/
theorem c9_toEaseInOut_linear_fixed_point (t : ℝ) :
    EasingJsx.EasingHelpers.toEaseInOut EasingJsx.Easing.linear t = t := by
  unfold EasingJsx.EasingHelpers.toEaseInOut EasingJsx.Easing.linear
  split_ifs <;> ring

/-- Claim C10: `toEaseOut` is an involution: for every easing function `f` and
every real `t`, `toEaseOut (toEaseOut f) t = f t`. -/
theorem c10_toEaseOut_involution (f : ℝ → ℝ) (t : ℝ) :
    EasingJsx.EasingHelpers.toEaseOut (EasingJsx.EasingHelpers.toEaseOut f) t
      = f t := by
  unfold EasingJsx.EasingHelpers.toEaseOut
  rw [show (1 : ℝ) - (1 - t) = t by ring]
  ring

/-- Claim C6: for every `f`, `x1`, `x2` with `f x1 ≠ f x2`,
`squeeze f x1 x2 0 = 0` and `squeeze f x1 x2 1 = 1`; and when `f x1 = f x2`,
every evaluation of the squeezed function divides by the zero divisor
`f x2 - f x1`, yielding a non-finite float (modelled by `squeezeF` returning
`none`) rather than raising an error. -/
theorem c6_squeeze_endpoints_and_degenerate (f : ℝ → ℝ) (x1 x2 : ℝ) :
    (f x1 ≠ f x2 →
      EasingJsx.EasingHelpers.squeeze f x1 x2 0 = 0 ∧
      EasingJsx.EasingHelpers.squeeze f x1 x2 1 = 1) ∧
    (f x1 = f x2 →
      ∀ t, EasingJsx.EasingHelpers.squeezeF f x1 x2 t = none) := by
  constructor
  · intro h
    constructor
    · simp [EasingJsx.EasingHelpers.squeeze]
    · unfold EasingJsx.EasingHelpers.squeeze EasingJsx.EasingHelpers.squeezeDivisor
      rw [show x1 + 1 * (x2 - x1) = x2 by ring]
      exact div_self (sub_ne_zero.mpr h.symm)
  · intro h t
    simp [EasingJsx.EasingHelpers.squeezeF, EasingJsx.EasingHelpers.squeezeDivisor, h]

/-- Witness for C6: the identity function with `x1 = 0`, `x2 = 1` has distinct
endpoint values and is squeezed to `1` at `1`; the constant-zero function has
equal endpoint values and every evaluation is non-finite. -/
theorem c6_squeeze_witness :
    EasingJsx.EasingHelpers.squeeze (fun x => x) 0 1 1 = 1 ∧
    EasingJsx.EasingHelpers.squeezeF (fun _ => (0 : ℝ)) 0 1 5 = none :=
  ⟨((c6_squeeze_endpoints_and_degenerate (fun x => x) 0 1).1 (by norm_num)).2,
   (c6_squeeze_endpoints_and_degenerate (fun _ => (0 : ℝ)) 0 1).2 rfl 5⟩

/-- Claim C7: `makeElasticIn springiness numberOfSwings` rounds the swing
count to the nearest integer `n` and returns
`t ↦ (e^(s*t) - 1)/(e^s - 1) * sin ((2*pi*n + pi/2)*t)`; consequently
`makeElasticIn s 2.6` is pointwise equal to `makeElasticIn s 3`. -/
theorem c7_makeElasticIn_rounds :
    (∀ (s n t : ℝ), EasingJsx.Easing.makeElasticIn s n t =
      (Real.exp (s * t) - 1) / (Real.exp s - 1) *
        Real.sin ((2 * Real.pi * ((round n : ℤ) : ℝ) + Real.pi / 2) * t)) ∧
    (∀ (s t : ℝ),
      EasingJsx.Easing.makeElasticIn s 2.6 t = EasingJsx.Easing.makeElasticIn s 3 t) := by
  have h26 : round (2.6 : ℝ) = 3 := by
    rw [round_eq]
    refine Int.floor_eq_iff.mpr ⟨by norm_num, by norm_num⟩
  have h3 : round (3 : ℝ) = 3 := by
    rw [round_eq]
    refine Int.floor_eq_iff.mpr ⟨by norm_num, by norm_num⟩
  constructor
  · intro s n t
    simp only [EasingJsx.Easing.makeElasticIn]
    rw [show (Real.pi * 2 * ((round n : ℤ) : ℝ) + Real.pi * 0.5) * t
        = (2 * Real.pi * ((round n : ℤ) : ℝ) + Real.pi / 2) * t by ring]
  · intro s t
    simp only [EasingJsx.Easing.makeElasticIn, h26, h3]

/-- The clamped bounciness is strictly greater than `1`. -/
lemma one_lt_bounceB (bounciness : ℝ) : 1 < EasingJsx.Easing.bounceB bounciness := by
  unfold EasingJsx.Easing.bounceB
  split_ifs with h
  · norm_num
  · exact not_le.mp h

/-- With an integer bounce count `n ≥ 1`, `pow = b^n` exceeds `1`. -/
lemma one_lt_bouncePow (bounciness : ℝ) (n : ℕ) (hn : 1 ≤ n) :
    1 < EasingJsx.Easing.bouncePow (n : ℝ) bounciness := by
  unfold EasingJsx.Easing.bouncePow
  have hcast : Real.rpow (EasingJsx.Easing.bounceB bounciness) ((n : ℕ) : ℝ)
      = EasingJsx.Easing.bounceB bounciness ^ (n : ℕ) := Real.rpow_natCast _ n
  rw [hcast]
  exact one_lt_pow₀ (one_lt_bounceB bounciness) (Nat.one_le_iff_ne_zero.mp hn)

/-- `sumOfUnits` is strictly positive for an integer bounce count `n ≥ 1`. -/
lemma bounceSumOfUnits_pos (bounciness : ℝ) (n : ℕ) (hn : 1 ≤ n) :
    0 < EasingJsx.Easing.bounceSumOfUnits (n : ℝ) bounciness := by
  have hb := one_lt_bounceB bounciness
  have hp := one_lt_bouncePow bounciness n hn
  unfold EasingJsx.Easing.bounceSumOfUnits
  have h1 : 0 < (1 - EasingJsx.Easing.bouncePow (n : ℝ) bounciness) /
      (1 - EasingJsx.Easing.bounceB bounciness) :=
    div_pos_of_neg_of_neg (by linarith) (by linarith)
  have h2 : 0 < EasingJsx.Easing.bouncePow (n : ℝ) bounciness * 0.5 := by
    nlinarith
  linarith

/-- Claim C5: `makeBounceIn` replaces any `bounciness ≤ 1` by `1.001`, and with
the clamped bounciness, for every `t` in `[0,1]` and integer `bounces ≥ 1`, the
argument `-t*sumOfUnits*(1 - bounciness) + 1` of the segment-lookup logarithm
is strictly positive and the divisor `log bounciness` is nonzero, so the
log-domain segment lookup never divides by zero or takes the log of a
non-positive number. -/
theorem c5_makeBounceIn_log_safety (bounciness t : ℝ) (n : ℕ)
    (hn : 1 ≤ n) (ht0 : 0 ≤ t) (ht1 : t ≤ 1) :
    (bounciness ≤ 1 → EasingJsx.Easing.bounceB bounciness = 1.001) ∧
    0 < EasingJsx.Easing.bounceLogArg (n : ℝ) bounciness t ∧
    Real.log (EasingJsx.Easing.bounceB bounciness) ≠ 0 := by
  have hb := one_lt_bounceB bounciness
  have hS := bounceSumOfUnits_pos bounciness n hn
  refine ⟨?_, ?_, ?_⟩
  · intro h
    unfold EasingJsx.Easing.bounceB
    rw [if_pos h]
  · unfold EasingJsx.Easing.bounceLogArg
    nlinarith [mul_nonneg (mul_nonneg ht0 hS.le)
      (by linarith : (0 : ℝ) ≤ EasingJsx.Easing.bounceB bounciness - 1)]
  · exact ne_of_gt (Real.log_pos hb)

/-- Witness for C5: at `bounciness = 1/2` (clamped), `t = 1/2`, `n = 2`. -/
theorem c5_makeBounceIn_log_safety_witness :
    EasingJsx.Easing.bounceB (1 / 2) = 1.001 ∧
    0 < EasingJsx.Easing.bounceLogArg ((2 : ℕ) : ℝ) (1 / 2) (1 / 2) ∧
    Real.log (EasingJsx.Easing.bounceB (1 / 2)) ≠ 0 := by
  have h := c5_makeBounceIn_log_safety (1 / 2) (1 / 2) 2
    (by norm_num) (by norm_num) (by norm_num)
  exact ⟨h.1 (by norm_num), h.2.1, h.2.2⟩

/-- Claim C8: every operation defined in both source variants — the
combinators `ease`, `toEaseOut`, `toEaseInOut`, `squeeze`, the named easing
functions `linear` and `quad`/`cubic`/`sin`/`exp`/`circle`/`back`/`elastic`/
`bounce` `In`/`Out`/`InOut`, and the `polyIn`, `backIn(amplitude)` and
`elasticIn(springiness, numberOfSwings)` factories — returns equal values on
all inputs in the two implementations. -/
theorem c8_variants_agree (f : ℝ → ℝ) (x1 x2 a e s nSw t : ℝ) :
    EasingJsx.EasingHelpers.ease f x1 x2 t = Part000.helpers.ease f x1 x2 t ∧
    EasingJsx.EasingHelpers.toEaseOut f t = Part000.helpers.toEaseOut f t ∧
    EasingJsx.EasingHelpers.toEaseInOut f t = Part000.helpers.toEaseInOut f t ∧
    EasingJsx.EasingHelpers.squeeze f x1 x2 t = Part000.helpers.squeeze f x1 x2 t ∧
    EasingJsx.Easing.linear t = Part000.Easing.linear t ∧
    EasingJsx.Easing.quadIn t = Part000.Easing.quadIn t ∧
    EasingJsx.Easing.quadOut t = Part000.Easing.quadOut t ∧
    EasingJsx.Easing.quadInOut t = Part000.Easing.quadInOut t ∧
    EasingJsx.Easing.cubicIn t = Part000.Easing.cubicIn t ∧
    EasingJsx.Easing.cubicOut t = Part000.Easing.cubicOut t ∧
    EasingJsx.Easing.cubicInOut t = Part000.Easing.cubicInOut t ∧
    EasingJsx.Easing.sinIn t = Part000.Easing.sinIn t ∧
    EasingJsx.Easing.sinOut t = Part000.Easing.sinOut t ∧
    EasingJsx.Easing.sinInOut t = Part000.Easing.sinInOut t ∧
    EasingJsx.Easing.expIn t = Part000.Easing.expIn t ∧
    EasingJsx.Easing.expOut t = Part000.Easing.expOut t ∧
    EasingJsx.Easing.expInOut t = Part000.Easing.expInOut t ∧
    EasingJsx.Easing.circleIn t = Part000.Easing.circleIn t ∧
    EasingJsx.Easing.circleOut t = Part000.Easing.circleOut t ∧
    EasingJsx.Easing.circleInOut t = Part000.Easing.circleInOut t ∧
    EasingJsx.Easing.backIn t = Part000.Easing.backIn t ∧
    EasingJsx.Easing.backOut t = Part000.Easing.backOut t ∧
    EasingJsx.Easing.backInOut t = Part000.Easing.backInOut t ∧
    EasingJsx.Easing.elasticIn t = Part000.Easing.elasticIn t ∧
    EasingJsx.Easing.elasticOut t = Part000.Easing.elasticOut t ∧
    EasingJsx.Easing.elasticInOut t = Part000.Easing.elasticInOut t ∧
    EasingJsx.Easing.bounceIn t = Part000.Easing.bounceIn t ∧
    EasingJsx.Easing.bounceOut t = Part000.Easing.bounceOut t ∧
    EasingJsx.Easing.bounceInOut t = Part000.Easing.bounceInOut t ∧
    EasingJsx.Easing.makePolyIn e t = Part000.make.polyIn e t ∧
    EasingJsx.Easing.makeBackIn a t = Part000.make.backIn a t ∧
    EasingJsx.Easing.makeElasticIn s nSw t = Part000.make.elasticIn s nSw t :=
  ⟨rfl, rfl, rfl, rfl, rfl, rfl, rfl, rfl, rfl, rfl, rfl, rfl, rfl, rfl, rfl,
   rfl, rfl, rfl, rfl, rfl, rfl, rfl, rfl, rfl, rfl, rfl, rfl, rfl, rfl, rfl,
   rfl, rfl⟩
